import Mathlib

/-!
Verification of the Flask database starter repository (parts 3 and 4).

This file gives a shallow embedding of the data model and the request
handlers of the repository:

* `Part4` models `part-4/app.py`: the `Author`/`Book` SQLAlchemy models and
  the JSON API routes (`create_author`, `update_author`, `delete_author`,
  `get_books`, `get_book`, `get_author`, `create_book`, `update_book`,
  `delete_book`).
* `Part3` models `part-3/app.py`: the `Student`/`Teacher` models and the
  form-driven `add_student` / `add_teacher` routes.

Modelling conventions:

* A database table is a list of rows; the auto-assigned integer primary key
  of a fresh row is `max existing id + 1` (SQLite's rowid assignment for an
  `INTEGER PRIMARY KEY` column).
* A parsed JSON body is a structure of `Option` fields (`none` = key absent).
  Fields whose JSON value may be `null` while the key is present are
  two-level options (`some none` = key present with value `null`).  The
  whole body is an `Option` at the outside: `none` models an absent or
  non-parseable request body, which the handlers observe as falsy data,
  matching the spec's `malformed-request-body` error kind.  The `extra` flag
  records that the body dictionary carries keys the handler does not read,
  so that such a body still counts as truthy, as a Python dict does.
* Database-enforced constraints (the UNIQUE constraints on `Book.isbn`,
  `Student.email`, `Teacher.email`) are modelled at commit time: a commit
  that would violate one fails (an `IntegrityError`, surfaced as an HTTP
  500 `serverError`) and leaves the store unchanged.
* `ORDER BY` is modelled with a structural insertion sort; SQL leaves the
  relative order of equal keys unspecified, so any correct sort is a
  faithful model.
-/

namespace Part4

/-- Row of the `author` table (`class Author(db.Model)`). -/
structure Author where
  id : Nat
  name : String
  bio : Option String := none
  city : Option String := none
deriving Repr, DecidableEq

/-- Row of the `book` table (`class Book(db.Model)`); `created_at` is the
creation timestamp (`default=datetime.utcnow`). -/
structure Book where
  id : Nat
  title : String
  author_id : Nat
  year : Option Int := none
  isbn : Option String := none
  created_at : Nat := 0
deriving Repr, DecidableEq

/-- The persistent store of part 4: the `author` and `book` tables. -/
structure DB where
  authors : List Author := []
  books : List Book := []
deriving Repr, DecidableEq

/-- Largest author id in use (0 when the table is empty). -/
def maxAuthorId (db : DB) : Nat := (db.authors.map (·.id)).foldr Nat.max 0

/-- Largest book id in use (0 when the table is empty). -/
def maxBookId (db : DB) : Nat := (db.books.map (·.id)).foldr Nat.max 0

/-- Primary-key lookup `Author.query.get(id)`. -/
def findAuthor (db : DB) (id : Nat) : Option Author :=
  db.authors.find? (fun a => a.id == id)

/-- Primary-key lookup `Book.query.get(id)`. -/
def findBook (db : DB) (id : Nat) : Option Book :=
  db.books.find? (fun b => b.id == id)

/-- JSON dictionary produced by `Author.to_dict`. -/
structure AuthorDict where
  id : Nat
  name : String
  bio : Option String
  city : Option String
  books_count : Nat
deriving Repr, DecidableEq

/-- `Author.to_dict`: the `books` relationship is the set of books whose
`author_id` is this author's id. -/
def Author.to_dict (db : DB) (a : Author) : AuthorDict :=
  { id := a.id
    name := a.name
    bio := a.bio
    city := a.city
    books_count := (db.books.filter (fun b => b.author_id == a.id)).length }

/-- JSON dictionary produced by `Book.to_dict`. -/
structure BookDict where
  id : Nat
  title : String
  author_id : Nat
  author_name : String
  year : Option Int
  isbn : Option String
  created_at : Option Nat
deriving Repr, DecidableEq

/-- `Book.to_dict`: looks the author up by primary key and falls back to
`"Unknown Author"` when it is missing. -/
def Book.to_dict (db : DB) (b : Book) : BookDict :=
  { id := b.id
    title := b.title
    author_id := b.author_id
    author_name :=
      match findAuthor db b.author_id with
      | some a => a.name
      | none => "Unknown Author"
    year := b.year
    isbn := b.isbn
    created_at := some b.created_at }

/-- Parsed JSON body of the author routes.  `extra` records keys the handler
does not read (they keep the dict truthy). -/
structure AuthorData where
  name : Option String := none
  bio : Option (Option String) := none
  city : Option (Option String) := none
  extra : Bool := false
deriving Repr, DecidableEq

/-- Python truthiness of the author body: `not data` is true for an absent
body (`none`) and for the empty dict. -/
def authorDataTruthy : Option AuthorData → Bool
  | none => false
  | some d => d.name.isSome || d.bio.isSome || d.city.isSome || d.extra

/-- Parsed JSON body of the book routes. -/
structure BookData where
  title : Option String := none
  author_id : Option Nat := none
  year : Option (Option Int) := none
  isbn : Option (Option String) := none
  extra : Bool := false
deriving Repr, DecidableEq

/-- Python truthiness of the book body. -/
def bookDataTruthy : Option BookData → Bool
  | none => false
  | some d => d.title.isSome || d.author_id.isSome || d.year.isSome || d.isbn.isSome || d.extra

/-- Truthiness of `data.get(key)` for a string-valued key: a present,
non-null, non-empty string. -/
def strTruthy : Option String → Bool
  | some s => s ≠ ""
  | none => false

/-- JSON responses of the part-4 API routes, with their HTTP status. -/
inductive Resp where
  | failure (status : Nat) (error : String)
  | authorOk (status : Nat) (message : String) (author : AuthorDict)
  | authorGot (author : AuthorDict) (books : List BookDict)
  | bookOk (status : Nat) (message : String) (book : BookDict)
  | booksPage (count : Nat) (page : Nat) (pages : Nat) (per_page : Int)
      (has_next : Bool) (has_prev : Bool) (books : List BookDict)
  | deleted (message : String)
  | serverError
deriving Repr, DecidableEq

/-- HTTP status of a response (`serverError` is the unhandled-exception
500 path). -/
def Resp.status : Resp → Nat
  | .failure s _ => s
  | .authorOk s _ _ => s
  | .authorGot _ _ => 200
  | .bookOk s _ _ => s
  | .booksPage _ _ _ _ _ _ _ => 200
  | .deleted _ => 200
  | .serverError => 500

/-- The `success` flag of the JSON envelope (an unhandled exception carries
no envelope and counts as not successful). -/
def Resp.success : Resp → Bool
  | .failure _ _ => false
  | .serverError => false
  | _ => true

/-- UNIQUE constraint on `book.isbn`: a book conflicts when some other row
holds the same non-null isbn (SQL UNIQUE ignores NULLs). -/
def isbnConflict (books : List Book) (b : Book) : Bool :=
  match b.isbn with
  | none => false
  | some s => books.any (fun x => x.id ≠ b.id && x.isbn == some s)

/-- Handler of `POST /api/authors` (`create_author`). -/
def create_author (db : DB) (data : Option AuthorData) : DB × Resp :=
  if authorDataTruthy data = false then
    (db, .failure 400 "No data provided")
  else
    let d := data.getD {}
    if strTruthy d.name = false then
      (db, .failure 400 "Name is required")
    else
      let na : Author :=
        { id := maxAuthorId db + 1
          name := d.name.getD ""
          bio := d.bio.join
          city := d.city.join }
      let db' : DB := { db with authors := db.authors ++ [na] }
      (db', .authorOk 201 "Author created successfully" (na.to_dict db'))

/-- Handler of `PUT /api/authors/<id>` (`update_author`). -/
def update_author (db : DB) (id : Nat) (data : Option AuthorData) : DB × Resp :=
  match findAuthor db id with
  | none => (db, .failure 404 "Author not found")
  | some a =>
    if authorDataTruthy data = false then
      (db, .failure 400 "No data provided")
    else
      let d := data.getD {}
      let a1 := match d.name with | some s => { a with name := s } | none => a
      let a2 := match d.bio with | some b => { a1 with bio := b } | none => a1
      let a3 := match d.city with | some c => { a2 with city := c } | none => a2
      let db' : DB :=
        { db with authors := db.authors.map (fun x => if x.id = id then a3 else x) }
      (db', .authorOk 200 "Author updated successfully" (a3.to_dict db'))

/-- Handler of `DELETE /api/authors/<id>` (`delete_author`); the
`cascade="all, delete-orphan"` relationship deletes the author's books. -/
def delete_author (db : DB) (id : Nat) : DB × Resp :=
  match findAuthor db id with
  | none => (db, .failure 404 "Author not found")
  | some _ =>
    let db' : DB :=
      { authors := db.authors.filter (fun a => a.id ≠ id)
        books := db.books.filter (fun b => b.author_id ≠ id) }
    (db', .deleted "Author and associated books deleted successfully")

/-- Handler of `GET /api/authors/<id>` (`get_author`). -/
def get_author (db : DB) (id : Nat) : Resp :=
  match findAuthor db id with
  | none => .failure 404 "Author not found"
  | some a =>
    .authorGot (a.to_dict db)
      ((db.books.filter (fun b => b.author_id == a.id)).map (Book.to_dict db))

/-- Handler of `GET /api/books/<id>` (`get_book`). -/
def get_book (db : DB) (id : Nat) : Resp :=
  match findBook db id with
  | none => .failure 404 "Book not found"
  | some b => .bookOk 200 "" (b.to_dict db)

/-- Handler of `POST /api/books` (`create_book`); `now` is the clock read by
the `created_at` column default. -/
def create_book (db : DB) (data : Option BookData) (now : Nat) : DB × Resp :=
  if bookDataTruthy data = false then
    (db, .failure 400 "No data provided")
  else
    let d := data.getD {}
    if strTruthy d.title = false || d.author_id.getD 0 = 0 then
      (db, .failure 400 "Title and author_id are required")
    else
      let aid := d.author_id.getD 0
      match findAuthor db aid with
      | none => (db, .failure 400 "Author not found")
      | some _ =>
        let isbnV := d.isbn.join
        if strTruthy isbnV && db.books.any (fun b => b.isbn == isbnV) then
          (db, .failure 400 "ISBN already exists")
        else
          let nb : Book :=
            { id := maxBookId db + 1
              title := d.title.getD ""
              author_id := aid
              year := d.year.join
              isbn := isbnV
              created_at := now }
          if isbnConflict db.books nb then
            (db, .serverError)
          else
            let db' : DB := { db with books := db.books ++ [nb] }
            (db', .bookOk 201 "Book created successfully" (nb.to_dict db'))

/-- Tail of `update_book` after the author-existence check: apply `year` and
`isbn` when present and commit, which enforces the isbn UNIQUE constraint. -/
def commitBookUpdate (db : DB) (id : Nat) (b : Book) (d : BookData) : DB × Resp :=
  let b2 := match d.year with | some y => { b with year := y } | none => b
  let b3 := match d.isbn with | some s => { b2 with isbn := s } | none => b2
  if isbnConflict db.books b3 then
    (db, .serverError)
  else
    let db' : DB :=
      { db with books := db.books.map (fun x => if x.id = id then b3 else x) }
    (db', .bookOk 200 "Book updated successfully" (b3.to_dict db'))

/-- Handler of `PUT /api/books/<id>` (`update_book`). -/
def update_book (db : DB) (id : Nat) (data : Option BookData) : DB × Resp :=
  match findBook db id with
  | none => (db, .failure 404 "Book not found")
  | some b =>
    if bookDataTruthy data = false then
      (db, .failure 400 "No data provided")
    else
      let d := data.getD {}
      let b1 := match d.title with | some t => { b with title := t } | none => b
      match d.author_id with
      | some aid =>
        match findAuthor db aid with
        | none => (db, .failure 400 "Author not found")
        | some _ => commitBookUpdate db id { b1 with author_id := aid } d
      | none => commitBookUpdate db id b1 d

/-- Handler of `DELETE /api/books/<id>` (`delete_book`). -/
def delete_book (db : DB) (id : Nat) : DB × Resp :=
  match findBook db id with
  | none => (db, .failure 404 "Book not found")
  | some _ =>
    let db' : DB := { db with books := db.books.filter (fun b => b.id ≠ id) }
    (db', .deleted "Book deleted successfully")

/-- Sort-field allow-list of `get_books`. -/
def allowed_sort_fields : List String := ["id", "title", "year", "created_at"]

/-- SQL ordering of a nullable column, ascending: NULLs sort first. -/
def optIntLe : Option Int → Option Int → Bool
  | none, _ => true
  | some _, none => false
  | some a, some b => a ≤ b

/-- Comparison used by the `order_by` branch of `get_books` for a sort field
(already validated) and direction. -/
def bookLe (sort_by order : String) (a b : Book) : Bool :=
  if sort_by = "title" then
    if order = "asc" then a.title ≤ b.title else b.title ≤ a.title
  else if sort_by = "year" then
    if order = "asc" then optIntLe a.year b.year else optIntLe b.year a.year
  else if sort_by = "created_at" then
    if order = "asc" then a.created_at ≤ b.created_at else b.created_at ≤ a.created_at
  else
    if order = "asc" then a.id ≤ b.id else b.id ≤ a.id

/-- Insert into a sorted list (the inner step of the ORDER BY model). -/
def insertBy (le : α → α → Bool) (a : α) : List α → List α
  | [] => [a]
  | b :: bs => if le a b then a :: b :: bs else b :: insertBy le a bs

/-- Structural insertion sort modelling the database's ORDER BY. -/
def orderBy (le : α → α → Bool) : List α → List α
  | [] => []
  | a :: as => insertBy le a (orderBy le as)

/-- Response of `GET /api/books`. -/
structure BooksPage where
  success : Bool
  count : Nat
  page : Nat
  pages : Nat
  per_page : Int
  has_next : Bool
  has_prev : Bool
  books : List BookDict
deriving Repr, DecidableEq

/-- Handler of `GET /api/books` (`get_books`).  `page` and `per_page` are the
query parameters (default 1 and 10 upstream), `sort` and `order` the raw
strings (default `"id"` and `"asc"`).  `paginate(..., error_out=False)`
clamps `page` below 1 to 1 and `per_page` below 1 to the library default 20,
and an out-of-range page yields an empty item list instead of an error. -/
def get_books (db : DB) (page per_page : Int) (sort order : String) : BooksPage :=
  let sort_by := if sort ∈ allowed_sort_fields then sort else "id"
  let sorted := orderBy (bookLe sort_by order) db.books
  let p : Nat := if page < 1 then 1 else page.toNat
  let pp : Nat := if per_page < 1 then 20 else per_page.toNat
  let total := db.books.length
  let items := (sorted.drop ((p - 1) * pp)).take pp
  { success := true
    count := total
    page := p
    pages := (total + pp - 1) / pp
    per_page := per_page
    has_next := p < (total + pp - 1) / pp
    has_prev := 1 < p
    books := items.map (Book.to_dict db) }

end Part4

namespace Part3

/-- Row of the `student` table (`class Student(db.Model)`); `email` carries a
UNIQUE constraint. -/
structure Student where
  id : Nat
  name : String
  email : String
  course_id : Nat
deriving Repr, DecidableEq

/-- Row of the `teacher` table (`class Teacher(db.Model)`); `email` carries a
UNIQUE constraint. -/
structure Teacher where
  id : Nat
  name : String
  email : String
  specialization : String
  course_id : Nat
deriving Repr, DecidableEq

/-- The part-3 store (the tables the uniqueness claims touch). -/
structure SchoolDB where
  students : List Student := []
  teachers : List Teacher := []
deriving Repr, DecidableEq

/-- Largest student id in use. -/
def maxStudentId (db : SchoolDB) : Nat := (db.students.map (·.id)).foldr Nat.max 0

/-- Largest teacher id in use. -/
def maxTeacherId (db : SchoolDB) : Nat := (db.teachers.map (·.id)).foldr Nat.max 0

/-- POST branch of `/add` (`add_student`): the route inserts without any
duplicate check, so the UNIQUE constraint on `student.email` fires at
commit; the failed commit is the returned error message and the store is
left as it was. -/
def add_student (db : SchoolDB) (name email : String) (course_id : Nat) :
    SchoolDB × Option String :=
  if db.students.any (fun s => s.email == email) then
    (db, some "UNIQUE constraint failed: student.email")
  else
    ({ db with
        students := db.students ++
          [{ id := maxStudentId db + 1, name := name, email := email,
             course_id := course_id }] },
     none)

/-- POST branch of `/add-teacher` (`add_teacher`), analogous to
`add_student` with the UNIQUE constraint on `teacher.email`. -/
def add_teacher (db : SchoolDB) (name email specialization : String)
    (course_id : Nat) : SchoolDB × Option String :=
  if db.teachers.any (fun t => t.email == email) then
    (db, some "UNIQUE constraint failed: teacher.email")
  else
    ({ db with
        teachers := db.teachers ++
          [{ id := maxTeacherId db + 1, name := name, email := email,
             specialization := specialization, course_id := course_id }] },
     none)

end Part3

open Part4 Part3

/-- Every element of a list is bounded by the list's fold of `Nat.max`. -/
theorem le_foldr_max {l : List Nat} {n : Nat} (h : n ∈ l) :
    n ≤ l.foldr Nat.max 0 := by
  induction l with
  | nil => cases h
  | cons x xs ih =>
    rcases List.mem_cons.mp h with rfl | hx
    · exact Nat.le_max_left _ _
    · exact Nat.le_trans (ih hx) (Nat.le_max_right _ _)

/-- An existing author's id is at most `maxAuthorId`. -/
theorem author_id_le_max {db : DB} {a : Author} (h : a ∈ db.authors) :
    a.id ≤ maxAuthorId db :=
  le_foldr_max (List.mem_map_of_mem (·.id) h)

/-- An existing book's id is at most `maxBookId`. -/
theorem book_id_le_max {db : DB} {b : Book} (h : b ∈ db.books) :
    b.id ≤ maxBookId db :=
  le_foldr_max (List.mem_map_of_mem (·.id) h)

/-- C8: a PUT to `/api/books/<id>` or `/api/authors/<id>` whose id matches no
existing row returns HTTP 404 with a `success: false` envelope and leaves the
store unchanged, whatever the body. -/
theorem update_nonexistent_returns_404_unchanged (db : DB) (idA idB : Nat)
    (ad : Option AuthorData) (bd : Option BookData)
    (ha : findAuthor db idA = none) (hb : findBook db idB = none) :
    update_author db idA ad = (db, .failure 404 "Author not found") ∧
    update_book db idB bd = (db, .failure 404 "Book not found") ∧
    (update_author db idA ad).2.status = 404 ∧
    (update_author db idA ad).2.success = false ∧
    (update_book db idB bd).2.status = 404 ∧
    (update_book db idB bd).2.success = false := by
  unfold update_author update_book
  rw [ha, hb]
  simp [Resp.status, Resp.success]

/-- Witness for C8 at a concrete store: the store holds author 1 and book 1
only, and PUTs to author 7 and book 9 404 without touching it. -/
theorem update_nonexistent_returns_404_unchanged_witness :
    update_author
        { authors := [{ id := 1, name := "A" }],
          books := [{ id := 1, title := "T", author_id := 1 }] }
        7 (some { name := some "B" })
      = ({ authors := [{ id := 1, name := "A" }],
           books := [{ id := 1, title := "T", author_id := 1 }] },
         .failure 404 "Author not found") ∧
    update_book
        { authors := [{ id := 1, name := "A" }],
          books := [{ id := 1, title := "T", author_id := 1 }] }
        9 (some { title := some "U" })
      = ({ authors := [{ id := 1, name := "A" }],
           books := [{ id := 1, title := "T", author_id := 1 }] },
         .failure 404 "Book not found") := by
  have h := update_nonexistent_returns_404_unchanged
    { authors := [{ id := 1, name := "A" }],
      books := [{ id := 1, title := "T", author_id := 1 }] }
    7 9 (some { name := some "B" }) (some { title := some "U" })
    (by decide) (by decide)
  exact ⟨h.1, h.2.1⟩

/-- C2: deleting an existing author succeeds and cascades: afterwards no book
row references the deleted author's id, and the author row itself is gone. -/
theorem delete_author_cascades (db : DB) (id : Nat)
    (h : (findAuthor db id).isSome) :
    (delete_author db id).2 = .deleted "Author and associated books deleted successfully" ∧
    ((delete_author db id).2).success = true ∧
    (∀ b ∈ (delete_author db id).1.books, b.author_id ≠ id) ∧
    (∀ a ∈ (delete_author db id).1.authors, a.id ≠ id) := by
  obtain ⟨a, ha⟩ := Option.isSome_iff_exists.mp h
  unfold delete_author
  rw [ha]
  refine ⟨rfl, rfl, ?_, ?_⟩
  · intro b hb
    have := (List.mem_filter.mp hb).2
    simpa using this
  · intro x hx
    have := (List.mem_filter.mp hx).2
    simpa using this

/-- Witness for C2: deleting author 1 from a store with two of their books
and one book of author 2 leaves no book with `author_id = 1`. -/
theorem delete_author_cascades_witness :
    ((delete_author
        { authors := [{ id := 1, name := "A" }, { id := 2, name := "B" }],
          books := [{ id := 1, title := "T1", author_id := 1 },
                    { id := 2, title := "T2", author_id := 2 },
                    { id := 3, title := "T3", author_id := 1 }] }
        1).2).success = true ∧
    (∀ b ∈ (delete_author
        { authors := [{ id := 1, name := "A" }, { id := 2, name := "B" }],
          books := [{ id := 1, title := "T1", author_id := 1 },
                    { id := 2, title := "T2", author_id := 2 },
                    { id := 3, title := "T3", author_id := 1 }] }
        1).1.books, b.author_id ≠ 1) := by
  have h := delete_author_cascades
    { authors := [{ id := 1, name := "A" }, { id := 2, name := "B" }],
      books := [{ id := 1, title := "T1", author_id := 1 },
                { id := 2, title := "T2", author_id := 2 },
                { id := 3, title := "T3", author_id := 1 }] }
    1 (by decide)
  exact ⟨h.2.1, h.2.2.1⟩

/-- C1 fails as stated: the body `{"author_id": 9999}` names an author_id
with no Author row, yet the response is 400 "Title and author_id are
required" (the required-field check runs first), not 400 "Author not
found". -/
theorem create_book_unknown_author_counterexample :
    findAuthor { authors := [{ id := 1, name := "A" }] } 9999 = none ∧
    (create_book { authors := [{ id := 1, name := "A" }] }
        (some { author_id := some 9999 }) 0).2
      = .failure 400 "Title and author_id are required" ∧
    (create_book { authors := [{ id := 1, name := "A" }] }
        (some { author_id := some 9999 }) 0).2
      ≠ .failure 400 "Author not found" := by
  decide

/-- C1 amended: a POST `/api/books` whose body carries a non-empty title and
a nonzero author_id for which no Author row exists gets HTTP 400
`{"success": false, "error": "Author not found"}` and the store is
unchanged. -/
theorem create_book_unknown_author_rejected (db : DB) (d : BookData) (now : Nat)
    (ht : strTruthy d.title = true) (ha : d.author_id.getD 0 ≠ 0)
    (hna : findAuthor db (d.author_id.getD 0) = none) :
    create_book db (some d) now = (db, .failure 400 "Author not found") := by
  have htr : bookDataTruthy (some d) = true := by
    cases hd : d.title with
    | none => rw [hd] at ht; simp [strTruthy] at ht
    | some s => simp [bookDataTruthy, hd]
  unfold create_book
  rw [htr]
  simp only [Bool.true_eq_false, if_false, ht, Option.getD_some]
  rw [if_neg (by simp [ha])]
  rw [hna]

/-- Witness for C1 amended: POST with title "New Book" and author_id 9999 on
a store holding only author 1 is rejected with "Author not found". -/
theorem create_book_unknown_author_rejected_witness :
    create_book { authors := [{ id := 1, name := "A" }] }
        (some { title := some "New Book", author_id := some 9999 }) 0
      = ({ authors := [{ id := 1, name := "A" }] },
         .failure 400 "Author not found") :=
  create_book_unknown_author_rejected
    { authors := [{ id := 1, name := "A" }] }
    { title := some "New Book", author_id := some 9999 } 0
    (by decide) (by decide) (by decide)

/-- C10 fails as stated: a PUT `/api/authors/1` with body `{}` on an empty
store is rejected with HTTP 404 "Author not found" (the existence check runs
before the body check), not HTTP 400 "No data provided". -/
theorem empty_body_nonexistent_put_counterexample :
    (update_author ({} : DB) 1 (some ({} : AuthorData))).2
      = .failure 404 "Author not found" ∧
    (update_author ({} : DB) 1 (some ({} : AuthorData))).2
      ≠ .failure 400 "No data provided" := by
  decide

/-- C10 amended: on the POST routes always, and on the PUT routes whenever
the id matches an existing row, a body parsing to the empty JSON object `{}`
is rejected exactly like an absent or non-parseable body: HTTP 400
`{"success": false, "error": "No data provided"}` with the store unchanged,
so a PUT with `{}` never acts as a no-op update. -/
theorem empty_body_rejected_like_missing (db : DB) (idA idB : Nat) (now : Nat)
    (ha : (findAuthor db idA).isSome) (hb : (findBook db idB).isSome) :
    create_author db (some {}) = (db, .failure 400 "No data provided") ∧
    create_author db none = (db, .failure 400 "No data provided") ∧
    create_book db (some {}) now = (db, .failure 400 "No data provided") ∧
    create_book db none now = (db, .failure 400 "No data provided") ∧
    update_author db idA (some {}) = (db, .failure 400 "No data provided") ∧
    update_author db idA none = (db, .failure 400 "No data provided") ∧
    update_book db idB (some {}) = (db, .failure 400 "No data provided") ∧
    update_book db idB none = (db, .failure 400 "No data provided") := by
  obtain ⟨a, ha'⟩ := Option.isSome_iff_exists.mp ha
  obtain ⟨b, hb'⟩ := Option.isSome_iff_exists.mp hb
  refine ⟨?_, ?_, ?_, ?_, ?_, ?_, ?_, ?_⟩
  · simp [create_author, authorDataTruthy]
  · simp [create_author, authorDataTruthy]
  · simp [create_book, bookDataTruthy]
  · simp [create_book, bookDataTruthy]
  · unfold update_author; rw [ha']; simp [authorDataTruthy]
  · unfold update_author; rw [ha']; simp [authorDataTruthy]
  · unfold update_book; rw [hb']; simp [bookDataTruthy]
  · unfold update_book; rw [hb']; simp [bookDataTruthy]

/-- Witness for C10 amended at a one-author, one-book store. -/
theorem empty_body_rejected_like_missing_witness :
    update_author
        { authors := [{ id := 1, name := "A" }],
          books := [{ id := 1, title := "T", author_id := 1 }] }
        1 (some {})
      = ({ authors := [{ id := 1, name := "A" }],
           books := [{ id := 1, title := "T", author_id := 1 }] },
         .failure 400 "No data provided") ∧
    update_book
        { authors := [{ id := 1, name := "A" }],
          books := [{ id := 1, title := "T", author_id := 1 }] }
        1 (some {})
      = ({ authors := [{ id := 1, name := "A" }],
           books := [{ id := 1, title := "T", author_id := 1 }] },
         .failure 400 "No data provided") ∧
    create_book
        { authors := [{ id := 1, name := "A" }],
          books := [{ id := 1, title := "T", author_id := 1 }] }
        (some {}) 0
      = ({ authors := [{ id := 1, name := "A" }],
           books := [{ id := 1, title := "T", author_id := 1 }] },
         .failure 400 "No data provided") := by
  have h := empty_body_rejected_like_missing
    { authors := [{ id := 1, name := "A" }],
      books := [{ id := 1, title := "T", author_id := 1 }] }
    1 1 0 (by decide) (by decide)
  exact ⟨h.2.2.2.2.1, h.2.2.2.2.2.2.1, h.2.2.1⟩

/-- Attempting to create a book whose isbn duplicates an existing row fails
whichever guard fires (the explicit check for a truthy isbn, the UNIQUE
constraint for an empty-string isbn) and leaves the store unchanged. -/
theorem create_book_dup_isbn_rejected (db : DB) (d : BookData) (now : Nat) (s : String)
    (hisbn : d.isbn = some (some s)) (hex : ∃ b ∈ db.books, b.isbn = some s) :
    (create_book db (some d) now).1 = db ∧
    ((create_book db (some d) now).2).success = false := by
  obtain ⟨b, hbmem, hbisbn⟩ := hex
  unfold create_book
  by_cases htr : bookDataTruthy (some d) = false
  · rw [if_pos htr]; exact ⟨rfl, rfl⟩
  · rw [if_neg htr]
    simp only [Option.getD_some, Bool.or_eq_true, decide_eq_true_eq, Bool.and_eq_true]
    by_cases hreq : strTruthy d.title = false ∨ d.author_id.getD 0 = 0
    · rw [if_pos hreq]; exact ⟨rfl, rfl⟩
    · rw [if_neg hreq]
      cases hfa : findAuthor db (d.author_id.getD 0) with
      | none => exact ⟨rfl, rfl⟩
      | some a =>
        have hjoin : d.isbn.join = some s := by rw [hisbn]; rfl
        rw [hjoin]
        have hany : db.books.any (fun x => x.isbn == some s) = true :=
          List.any_eq_true.mpr ⟨b, hbmem, by simp [hbisbn]⟩
        by_cases hs : s = ""
        · rw [if_neg (by simp [strTruthy, hs])]
          have hconf : isbnConflict db.books
              { id := maxBookId db + 1, title := d.title.getD "",
                author_id := d.author_id.getD 0, year := d.year.join,
                isbn := some s, created_at := now } = true := by
            unfold isbnConflict
            refine List.any_eq_true.mpr ⟨b, hbmem, ?_⟩
            have hlt : b.id < maxBookId db + 1 := Nat.lt_succ_of_le (book_id_le_max hbmem)
            simp [hbisbn, Nat.ne_of_lt hlt]
          rw [if_pos hconf]
          exact ⟨rfl, rfl⟩
        · rw [if_pos ⟨by simp [strTruthy, hs], hany⟩]
          exact ⟨rfl, rfl⟩

/-- C3: creating with a duplicate unique field is rejected with an error and
leaves the store unchanged: a duplicate Student email (UNIQUE constraint at
commit), a duplicate Teacher email (likewise), or a duplicate Book isbn. -/
theorem duplicate_unique_create_rejected :
    (∀ (db : SchoolDB) (n e : String) (c : Nat),
      (∃ s ∈ db.students, s.email = e) →
        (add_student db n e c).1 = db ∧ ((add_student db n e c).2).isSome = true) ∧
    (∀ (db : SchoolDB) (n e sp : String) (c : Nat),
      (∃ t ∈ db.teachers, t.email = e) →
        (add_teacher db n e sp c).1 = db ∧ ((add_teacher db n e sp c).2).isSome = true) ∧
    (∀ (db : DB) (d : BookData) (now : Nat) (s : String),
      d.isbn = some (some s) → (∃ b ∈ db.books, b.isbn = some s) →
        (create_book db (some d) now).1 = db ∧
        ((create_book db (some d) now).2).success = false) := by
  refine ⟨?_, ?_, ?_⟩
  · rintro db n e c ⟨s, hs, he⟩
    have h : db.students.any (fun x => x.email == e) = true :=
      List.any_eq_true.mpr ⟨s, hs, by simp [he]⟩
    unfold add_student
    rw [if_pos h]
    exact ⟨rfl, rfl⟩
  · rintro db n e sp c ⟨t, ht, he⟩
    have h : db.teachers.any (fun x => x.email == e) = true :=
      List.any_eq_true.mpr ⟨t, ht, by simp [he]⟩
    unfold add_teacher
    rw [if_pos h]
    exact ⟨rfl, rfl⟩
  · intro db d now s hisbn hex
    exact create_book_dup_isbn_rejected db d now s hisbn hex

/-- Witness for C3: a duplicate student email, a duplicate teacher email and
a duplicate book isbn each bounce off a concrete store without changing it. -/
theorem duplicate_unique_create_rejected_witness :
    ((add_student
        { students := [{ id := 1, name := "Alice", email := "a@x.com", course_id := 1 }] }
        "Bob" "a@x.com" 2).1
      = { students := [{ id := 1, name := "Alice", email := "a@x.com", course_id := 1 }] } ∧
     ((add_student
        { students := [{ id := 1, name := "Alice", email := "a@x.com", course_id := 1 }] }
        "Bob" "a@x.com" 2).2).isSome = true) ∧
    ((add_teacher
        { teachers := [{ id := 1, name := "T", email := "t@x", specialization := "Py", course_id := 1 }] }
        "U" "t@x" "Math" 2).1
      = { teachers := [{ id := 1, name := "T", email := "t@x", specialization := "Py", course_id := 1 }] } ∧
     ((add_teacher
        { teachers := [{ id := 1, name := "T", email := "t@x", specialization := "Py", course_id := 1 }] }
        "U" "t@x" "Math" 2).2).isSome = true) ∧
    ((create_book
        { authors := [{ id := 1, name := "A" }],
          books := [{ id := 1, title := "T", author_id := 1, isbn := some "X" }] }
        (some { title := some "U", author_id := some 1, isbn := some (some "X") }) 0).1
      = { authors := [{ id := 1, name := "A" }],
          books := [{ id := 1, title := "T", author_id := 1, isbn := some "X" }] } ∧
     ((create_book
        { authors := [{ id := 1, name := "A" }],
          books := [{ id := 1, title := "T", author_id := 1, isbn := some "X" }] }
        (some { title := some "U", author_id := some 1, isbn := some (some "X") }) 0).2).success
       = false) := by
  refine ⟨duplicate_unique_create_rejected.1 _ "Bob" "a@x.com" 2
      ⟨{ id := 1, name := "Alice", email := "a@x.com", course_id := 1 }, by decide, rfl⟩,
    duplicate_unique_create_rejected.2.1 _ "U" "t@x" "Math" 2
      ⟨{ id := 1, name := "T", email := "t@x", specialization := "Py", course_id := 1 },
        by decide, rfl⟩,
    duplicate_unique_create_rejected.2.2 _ _ 0 "X" rfl
      ⟨{ id := 1, title := "T", author_id := 1, isbn := some "X" }, by decide, rfl⟩⟩

/-- Committing a book update whose new isbn duplicates another row's isbn
violates the UNIQUE constraint and rolls back. -/
theorem commitBookUpdate_dup (db : DB) (id : Nat) (c : Book) (d : BookData) (s : String)
    (hcid : c.id = id) (hisbn : d.isbn = some (some s))
    (hex : ∃ x ∈ db.books, x.id ≠ id ∧ x.isbn = some s) :
    commitBookUpdate db id c d = (db, .serverError) := by
  obtain ⟨x, hxmem, hxid, hxisbn⟩ := hex
  unfold commitBookUpdate
  rw [hisbn]
  cases hy : d.year with
  | none =>
    have hconf : isbnConflict db.books { c with isbn := some s } = true := by
      unfold isbnConflict
      exact List.any_eq_true.mpr ⟨x, hxmem, by simp [hxisbn, hcid, hxid]⟩
    rw [if_pos hconf]
  | some y =>
    have hconf : isbnConflict db.books { c with year := y, isbn := some s } = true := by
      unfold isbnConflict
      exact List.any_eq_true.mpr ⟨x, hxmem, by simp [hxisbn, hcid, hxid]⟩
    rw [if_pos hconf]

/-- C4 core: on an existing book, a PUT naming a nonexistent author is
rejected with 400 "Author not found" and no change; a PUT whose isbn value
duplicates another book's isbn errors (UNIQUE constraint) with no change. -/
theorem update_book_revalidates (db : DB) (id : Nat) (d : BookData)
    (hex : (findBook db id).isSome) :
    (∀ aid, d.author_id = some aid → findAuthor db aid = none →
      update_book db id (some d) = (db, .failure 400 "Author not found")) ∧
    (∀ s, d.isbn = some (some s) →
      (∃ x ∈ db.books, x.id ≠ id ∧ x.isbn = some s) →
      (update_book db id (some d)).1 = db ∧
      ((update_book db id (some d)).2).success = false) := by
  obtain ⟨bk, hbk⟩ := Option.isSome_iff_exists.mp hex
  have hbkid : bk.id = id := by simpa using List.find?_some hbk
  constructor
  · intro aid haid hfa
    unfold update_book
    rw [hbk]
    dsimp only
    simp only [Option.getD_some]
    rw [if_neg (by simp [bookDataTruthy, haid])]
    rw [haid]
    dsimp only
    rw [hfa]
  · intro s hisbn hx
    unfold update_book
    rw [hbk]
    dsimp only
    simp only [Option.getD_some]
    rw [if_neg (by simp [bookDataTruthy, hisbn])]
    cases han : d.author_id with
    | none =>
      dsimp only
      have hb1 : (match d.title with | some t => { bk with title := t } | none => bk).id = id := by
        cases d.title <;> simpa using hbkid
      rw [commitBookUpdate_dup db id _ d s hb1 hisbn hx]
      exact ⟨rfl, rfl⟩
    | some aid =>
      dsimp only
      cases hfa : findAuthor db aid with
      | none => exact ⟨rfl, rfl⟩
      | some a =>
        dsimp only
        have hb1 : ({ (match d.title with | some t => { bk with title := t } | none => bk) with
            author_id := aid } : Book).id = id := by
          cases d.title <;> simpa using hbkid
        rw [commitBookUpdate_dup db id _ d s hb1 hisbn hx]
        exact ⟨rfl, rfl⟩

/-- Witness for C4 at a concrete store: book 2 exists; pointing it at author
9999 is rejected with "Author not found" and no change, and giving it book
1's isbn "X" errors with no change. -/
theorem update_book_revalidates_witness :
    update_book
        { authors := [{ id := 1, name := "A" }],
          books := [{ id := 1, title := "T1", author_id := 1, isbn := some "X" },
                    { id := 2, title := "T2", author_id := 1 }] }
        2 (some { author_id := some 9999 })
      = ({ authors := [{ id := 1, name := "A" }],
           books := [{ id := 1, title := "T1", author_id := 1, isbn := some "X" },
                     { id := 2, title := "T2", author_id := 1 }] },
         .failure 400 "Author not found") ∧
    ((update_book
        { authors := [{ id := 1, name := "A" }],
          books := [{ id := 1, title := "T1", author_id := 1, isbn := some "X" },
                    { id := 2, title := "T2", author_id := 1 }] }
        2 (some { isbn := some (some "X") })).1
      = { authors := [{ id := 1, name := "A" }],
          books := [{ id := 1, title := "T1", author_id := 1, isbn := some "X" },
                    { id := 2, title := "T2", author_id := 1 }] } ∧
     ((update_book
        { authors := [{ id := 1, name := "A" }],
          books := [{ id := 1, title := "T1", author_id := 1, isbn := some "X" },
                    { id := 2, title := "T2", author_id := 1 }] }
        2 (some { isbn := some (some "X") })).2).success = false) := by
  refine ⟨(update_book_revalidates _ 2 { author_id := some 9999 } (by decide)).1
      9999 rfl (by decide),
    (update_book_revalidates _ 2 { isbn := some (some "X") } (by decide)).2
      "X" rfl
      ⟨{ id := 1, title := "T1", author_id := 1, isbn := some "X" }, by decide, by decide, rfl⟩⟩

theorem find?_author_replace (l : List Author) (id : Nat) (na : Author) (h : na.id = id) :
    (l.map fun x => if x.id = id then na else x).find? (fun x => x.id == id)
      = (l.find? (fun x => x.id == id)).map (fun _ => na) := by
  induction l with
  | nil => rfl
  | cons x xs ih =>
    by_cases hx : x.id = id
    · simp [hx, h]
    · simp [hx, ih]

theorem replaceAuthor_frame (db : DB) (id : Nat) (na : Author) (a : Author)
    (ha : findAuthor db id = some a) (hna : na.id = id) :
    findAuthor { db with authors := db.authors.map (fun x => if x.id = id then na else x) } id
        = some na ∧
    (∀ x ∈ db.authors, x.id ≠ id →
        x ∈ db.authors.map (fun x => if x.id = id then na else x)) ∧
    (∀ x ∈ db.authors.map (fun x => if x.id = id then na else x), x.id ≠ id →
        x ∈ db.authors) := by
  refine ⟨?_, ?_, ?_⟩
  · unfold findAuthor at *
    rw [find?_author_replace db.authors id na hna, ha]
    rfl
  · intro x hx hne
    have hfix : (if x.id = id then na else x) = x := if_neg hne
    exact hfix ▸ List.mem_map_of_mem _ hx
  · intro x hx hne
    obtain ⟨y, hy, hxy⟩ := List.mem_map.mp hx
    by_cases hyid : y.id = id
    · rw [if_pos hyid] at hxy
      cases hxy
      exact absurd hna hne
    · rw [if_neg hyid] at hxy
      cases hxy
      exact hy

theorem update_author_frame (db : DB) (id : Nat) (d : AuthorData) (a : Author)
    (ha : findAuthor db id = some a) :
    ∃ a', findAuthor (update_author db id (some d)).1 id = some a' ∧
      a'.id = a.id ∧
      (d.name = none → a'.name = a.name) ∧
      (d.bio = none → a'.bio = a.bio) ∧
      (d.city = none → a'.city = a.city) ∧
      (update_author db id (some d)).1.books = db.books ∧
      (∀ x ∈ db.authors, x.id ≠ id → x ∈ (update_author db id (some d)).1.authors) ∧
      (∀ x ∈ (update_author db id (some d)).1.authors, x.id ≠ id → x ∈ db.authors) := by
  have haid : a.id = id := by simpa using List.find?_some ha
  unfold update_author
  rw [ha]
  dsimp only
  by_cases htr : authorDataTruthy (some d) = false
  · rw [if_pos htr]
    exact ⟨a, ha, rfl, fun _ => rfl, fun _ => rfl, fun _ => rfl, rfl,
      fun x hx _ => hx, fun x hx _ => hx⟩
  · rw [if_neg htr]
    simp only [Option.getD_some]
    cases hn : d.name <;> cases hb : d.bio <;> cases hc : d.city <;> dsimp only <;>
      exact ⟨_, (replaceAuthor_frame db id _ a ha (by exact haid)).1, rfl,
        by simp [hn], by simp [hb], by simp [hc], trivial,
        (replaceAuthor_frame db id _ a ha (by exact haid)).2.1,
        (replaceAuthor_frame db id _ a ha (by exact haid)).2.2⟩

theorem find?_book_replace (l : List Book) (id : Nat) (nb : Book) (h : nb.id = id) :
    (l.map fun x => if x.id = id then nb else x).find? (fun x => x.id == id)
      = (l.find? (fun x => x.id == id)).map (fun _ => nb) := by
  induction l with
  | nil => rfl
  | cons x xs ih =>
    by_cases hx : x.id = id
    · simp [hx, h]
    · simp [hx, ih]

theorem replaceBook_frame (db : DB) (id : Nat) (nb : Book) (b : Book)
    (hb : findBook db id = some b) (hnb : nb.id = id) :
    findBook { db with books := db.books.map (fun x => if x.id = id then nb else x) } id
        = some nb ∧
    (∀ x ∈ db.books, x.id ≠ id →
        x ∈ db.books.map (fun x => if x.id = id then nb else x)) ∧
    (∀ x ∈ db.books.map (fun x => if x.id = id then nb else x), x.id ≠ id →
        x ∈ db.books) := by
  refine ⟨?_, ?_, ?_⟩
  · unfold findBook at *
    rw [find?_book_replace db.books id nb hnb, hb]
    rfl
  · intro x hx hne
    have hfix : (if x.id = id then nb else x) = x := if_neg hne
    exact hfix ▸ List.mem_map_of_mem _ hx
  · intro x hx hne
    obtain ⟨y, hy, hxy⟩ := List.mem_map.mp hx
    by_cases hyid : y.id = id
    · rw [if_pos hyid] at hxy
      cases hxy
      exact absurd hnb hne
    · rw [if_neg hyid] at hxy
      cases hxy
      exact hy

/-- Frame of the commit stage of `update_book`: whether the commit succeeds
or hits the isbn UNIQUE constraint, the row at `id` keeps every field the
body does not name, the author table is untouched, and no other book row
changes. -/
theorem commitBookUpdate_frame (db : DB) (id : Nat) (c : Book) (d : BookData) (b : Book)
    (hb : findBook db id = some b) (hcid : c.id = id)
    (hct : d.title = none → c.title = b.title)
    (hca : d.author_id = none → c.author_id = b.author_id)
    (hccr : c.created_at = b.created_at)
    (hcy : c.year = b.year) (hci : c.isbn = b.isbn) :
    ∃ b', findBook (commitBookUpdate db id c d).1 id = some b' ∧
      b'.id = b.id ∧ b'.created_at = b.created_at ∧
      (d.title = none → b'.title = b.title) ∧
      (d.author_id = none → b'.author_id = b.author_id) ∧
      (d.year = none → b'.year = b.year) ∧
      (d.isbn = none → b'.isbn = b.isbn) ∧
      (commitBookUpdate db id c d).1.authors = db.authors ∧
      (∀ x ∈ db.books, x.id ≠ id → x ∈ (commitBookUpdate db id c d).1.books) ∧
      (∀ x ∈ (commitBookUpdate db id c d).1.books, x.id ≠ id → x ∈ db.books) := by
  have hbid : b.id = id := by simpa using List.find?_some hb
  have hcb : c.id = b.id := by rw [hcid, hbid]
  unfold commitBookUpdate
  cases hy : d.year with
  | none =>
    cases hi : d.isbn with
    | none =>
      dsimp only
      by_cases hcf : isbnConflict db.books c = true
      · rw [if_pos hcf]
        exact ⟨b, hb, rfl, rfl, fun _ => rfl, fun _ => rfl, fun _ => rfl, fun _ => rfl, rfl,
          fun x hx _ => hx, fun x hx _ => hx⟩
      · rw [if_neg hcf]
        exact ⟨c, (replaceBook_frame db id _ b hb (by exact hcid)).1,
          hcb, hccr, fun h => hct h, fun h => hca h, fun _ => hcy, fun _ => hci, rfl,
          (replaceBook_frame db id _ b hb (by exact hcid)).2.1,
          (replaceBook_frame db id _ b hb (by exact hcid)).2.2⟩
    | some i =>
      dsimp only
      by_cases hcf : isbnConflict db.books { c with isbn := i } = true
      · rw [if_pos hcf]
        exact ⟨b, hb, rfl, rfl, fun _ => rfl, fun _ => rfl, fun _ => rfl, fun _ => rfl, rfl,
          fun x hx _ => hx, fun x hx _ => hx⟩
      · rw [if_neg hcf]
        exact ⟨{ c with isbn := i }, (replaceBook_frame db id _ b hb (by exact hcid)).1,
          hcb, hccr, fun h => hct h, fun h => hca h, fun _ => hcy, by simp, rfl,
          (replaceBook_frame db id _ b hb (by exact hcid)).2.1,
          (replaceBook_frame db id _ b hb (by exact hcid)).2.2⟩
  | some y =>
    cases hi : d.isbn with
    | none =>
      dsimp only
      by_cases hcf : isbnConflict db.books { c with year := y } = true
      · rw [if_pos hcf]
        exact ⟨b, hb, rfl, rfl, fun _ => rfl, fun _ => rfl, fun _ => rfl, fun _ => rfl, rfl,
          fun x hx _ => hx, fun x hx _ => hx⟩
      · rw [if_neg hcf]
        exact ⟨{ c with year := y }, (replaceBook_frame db id _ b hb (by exact hcid)).1,
          hcb, hccr, fun h => hct h, fun h => hca h, by simp, fun _ => hci, rfl,
          (replaceBook_frame db id _ b hb (by exact hcid)).2.1,
          (replaceBook_frame db id _ b hb (by exact hcid)).2.2⟩
    | some i =>
      dsimp only
      by_cases hcf : isbnConflict db.books { c with year := y, isbn := i } = true
      · rw [if_pos hcf]
        exact ⟨b, hb, rfl, rfl, fun _ => rfl, fun _ => rfl, fun _ => rfl, fun _ => rfl, rfl,
          fun x hx _ => hx, fun x hx _ => hx⟩
      · rw [if_neg hcf]
        exact ⟨{ c with year := y, isbn := i }, (replaceBook_frame db id _ b hb (by exact hcid)).1,
          hcb, hccr, fun h => hct h, fun h => hca h, by simp, by simp, rfl,
          (replaceBook_frame db id _ b hb (by exact hcid)).2.1,
          (replaceBook_frame db id _ b hb (by exact hcid)).2.2⟩

/-- Frame of `update_book` on an existing row: fields absent from the body
keep their values, `created_at` and the key are never modified, the author
table is untouched, and no other book row changes. -/
theorem update_book_frame (db : DB) (id : Nat) (d : BookData) (b : Book)
    (hb : findBook db id = some b) :
    ∃ b', findBook (update_book db id (some d)).1 id = some b' ∧
      b'.id = b.id ∧ b'.created_at = b.created_at ∧
      (d.title = none → b'.title = b.title) ∧
      (d.author_id = none → b'.author_id = b.author_id) ∧
      (d.year = none → b'.year = b.year) ∧
      (d.isbn = none → b'.isbn = b.isbn) ∧
      (update_book db id (some d)).1.authors = db.authors ∧
      (∀ x ∈ db.books, x.id ≠ id → x ∈ (update_book db id (some d)).1.books) ∧
      (∀ x ∈ (update_book db id (some d)).1.books, x.id ≠ id → x ∈ db.books) := by
  have hbid : b.id = id := by simpa using List.find?_some hb
  unfold update_book
  rw [hb]
  dsimp only
  simp only [Option.getD_some]
  by_cases htr : bookDataTruthy (some d) = false
  · rw [if_pos htr]
    exact ⟨b, hb, rfl, rfl, fun _ => rfl, fun _ => rfl, fun _ => rfl, fun _ => rfl, rfl,
      fun x hx _ => hx, fun x hx _ => hx⟩
  · rw [if_neg htr]
    cases hau : d.author_id with
    | none =>
      cases hn : d.title with
      | none =>
        dsimp only
        simpa [hau, hn] using
          commitBookUpdate_frame db id b d b hb hbid (fun _ => rfl) (fun _ => rfl) rfl rfl rfl
      | some t =>
        dsimp only
        simpa [hau, hn] using
          commitBookUpdate_frame db id { b with title := t } d b hb (by exact hbid)
            (by simp [hn]) (fun _ => rfl) rfl rfl rfl
    | some aid =>
      dsimp only
      cases hfa : findAuthor db aid with
      | none =>
        dsimp only
        exact ⟨b, hb, rfl, rfl, fun _ => rfl, fun _ => rfl, fun _ => rfl, fun _ => rfl, rfl,
          fun x hx _ => hx, fun x hx _ => hx⟩
      | some a =>
        dsimp only
        cases hn : d.title with
        | none =>
          dsimp only
          simpa [hau, hn] using
            commitBookUpdate_frame db id { b with author_id := aid } d b hb (by exact hbid)
              (fun _ => rfl) (by simp [hau]) rfl rfl rfl
        | some t =>
          dsimp only
          simpa [hau, hn] using
            commitBookUpdate_frame db id { b with title := t, author_id := aid } d b hb
              (by exact hbid) (by simp [hn]) (by simp [hau]) rfl rfl rfl

theorem findAuthor_append_fresh (db : DB) (na : Author)
    (hfresh : ∀ x ∈ db.authors, x.id ≠ na.id) :
    findAuthor { db with authors := db.authors ++ [na] } na.id = some na := by
  unfold findAuthor
  have h1 : db.authors.find? (fun a => a.id == na.id) = none :=
    List.find?_eq_none.mpr (fun x hx => by simpa using hfresh x hx)
  simp [List.find?_append, h1]

theorem findBook_append_fresh (db : DB) (nb : Book)
    (hfresh : ∀ x ∈ db.books, x.id ≠ nb.id) :
    findBook { db with books := db.books ++ [nb] } nb.id = some nb := by
  unfold findBook
  have h1 : db.books.find? (fun b => b.id == nb.id) = none :=
    List.find?_eq_none.mpr (fun x hx => by simpa using hfresh x hx)
  simp [List.find?_append, h1]

theorem isbnConflict_eq_false_of_no_dup (books : List Book) (b : Book)
    (h : ∀ s, b.isbn = some s → ∀ x ∈ books, x.isbn ≠ some s) :
    isbnConflict books b = false := by
  unfold isbnConflict
  cases hi : b.isbn with
  | none => rfl
  | some s =>
    rw [List.any_eq_false]
    intro x hx
    simp only [Bool.and_eq_true, not_and, beq_iff_eq, ne_eq, decide_eq_true_eq]
    intro _
    exact h s hi x hx

theorem create_with_required_fields_succeeds
    (db : DB) (ad : AuthorData) (bd : BookData) (now : Nat)
    (an : String) (han : ad.name = some an) (han' : an ≠ "")
    (t : String) (ht : bd.title = some t) (ht' : t ≠ "")
    (aid : Nat) (haid : bd.author_id = some aid) (haid0 : aid ≠ 0)
    (hauth : (findAuthor db aid).isSome)
    (hisbn : ∀ s, bd.isbn = some (some s) → ∀ x ∈ db.books, x.isbn ≠ some s) :
    (∃ na, (create_author db (some ad)).1.authors = db.authors ++ [na] ∧
      (∀ x ∈ db.authors, x.id ≠ na.id) ∧
      findAuthor (create_author db (some ad)).1 na.id = some na ∧
      (create_author db (some ad)).2
        = .authorOk 201 "Author created successfully"
            (na.to_dict (create_author db (some ad)).1) ∧
      ((create_author db (some ad)).2).status = 201 ∧
      ((create_author db (some ad)).2).success = true ∧
      na.name = an) ∧
    (∃ nb, (create_book db (some bd) now).1.books = db.books ++ [nb] ∧
      (create_book db (some bd) now).1.authors = db.authors ∧
      (∀ x ∈ db.books, x.id ≠ nb.id) ∧
      findBook (create_book db (some bd) now).1 nb.id = some nb ∧
      (create_book db (some bd) now).2
        = .bookOk 201 "Book created successfully"
            (nb.to_dict (create_book db (some bd) now).1) ∧
      ((create_book db (some bd) now).2).status = 201 ∧
      ((create_book db (some bd) now).2).success = true ∧
      nb.title = t ∧ nb.author_id = aid) := by
  constructor
  · unfold create_author
    rw [if_neg (by simp [authorDataTruthy, han])]
    simp only [Option.getD_some]
    rw [if_neg (by simp [strTruthy, han, han'])]
    dsimp only
    refine ⟨_, rfl, ?_, ?_, rfl, rfl, rfl, by simp [han]⟩
    · exact fun x hx => Nat.ne_of_lt (Nat.lt_succ_of_le (author_id_le_max hx))
    · exact findAuthor_append_fresh db _
        (fun x hx => Nat.ne_of_lt (Nat.lt_succ_of_le (author_id_le_max hx)))
  · obtain ⟨a, hfa⟩ := Option.isSome_iff_exists.mp hauth
    unfold create_book
    rw [if_neg (by simp [bookDataTruthy, ht])]
    simp only [Option.getD_some, Bool.or_eq_true, decide_eq_true_eq]
    rw [if_neg (by simp [strTruthy, ht, ht', haid, haid0])]
    simp only [haid, Option.getD_some]
    rw [hfa]
    dsimp only
    have hg1 : ¬(strTruthy bd.isbn.join = true ∧
        (db.books.any fun x => x.isbn == bd.isbn.join) = true) := by
      cases hj : bd.isbn.join with
      | none => simp [strTruthy]
      | some s =>
        rintro ⟨-, hany⟩
        obtain ⟨x, hxmem, hxbeq⟩ := List.any_eq_true.mp hany
        have hxisbn : x.isbn = some s := by simpa [hj] using hxbeq
        exact hisbn s (Option.join_eq_some.mp hj) x hxmem hxisbn
    rw [if_neg (by simpa [Bool.and_eq_true] using hg1)]
    have hbindj : ∀ (o : Option (Option String)) (s : String),
        (o.bind fun x => x) = some s → o = some (some s) := by
      intro o s h
      cases o with
      | none => simp at h
      | some v => simp at h; rw [h]
    have hg2 : isbnConflict db.books
        { id := maxBookId db + 1, title := bd.title.getD "", author_id := aid,
          year := bd.year.bind fun a => a, isbn := bd.isbn.bind fun a => a,
          created_at := now } = false := by
      apply isbnConflict_eq_false_of_no_dup
      intro s hs x hx
      exact hisbn s (hbindj bd.isbn s hs) x hx
    rw [if_neg (by simp [hg2])]
    dsimp only
    refine ⟨_, rfl, rfl, ?_, ?_, rfl, rfl, rfl, by simp [ht], rfl⟩
    · exact fun x hx => Nat.ne_of_lt (Nat.lt_succ_of_le (book_id_le_max hx))
    · exact findBook_append_fresh db _
        (fun x hx => Nat.ne_of_lt (Nat.lt_succ_of_le (book_id_le_max hx)))

/-- Witness for C9: on a store with author 1 and no books, POSTing author
"J.K. Rowling" and book "New Book" (author 1, year 2024) each create a fresh
retrievable row and answer 201 with a success envelope. -/
theorem create_with_required_fields_succeeds_witness :
    (∃ na, (create_author { authors := [{ id := 1, name := "A" }] }
        (some { name := some "J.K. Rowling" })).1.authors
          = [{ id := 1, name := "A" }] ++ [na] ∧
      (∀ x ∈ ({ authors := [{ id := 1, name := "A" }] } : DB).authors, x.id ≠ na.id) ∧
      findAuthor (create_author { authors := [{ id := 1, name := "A" }] }
        (some { name := some "J.K. Rowling" })).1 na.id = some na ∧
      ((create_author { authors := [{ id := 1, name := "A" }] }
        (some { name := some "J.K. Rowling" })).2).status = 201 ∧
      ((create_author { authors := [{ id := 1, name := "A" }] }
        (some { name := some "J.K. Rowling" })).2).success = true ∧
      na.name = "J.K. Rowling") ∧
    (∃ nb, (create_book { authors := [{ id := 1, name := "A" }] }
        (some { title := some "New Book", author_id := some 1,
                year := some (some 2024) }) 5).1.books = [] ++ [nb] ∧
      findBook (create_book { authors := [{ id := 1, name := "A" }] }
        (some { title := some "New Book", author_id := some 1,
                year := some (some 2024) }) 5).1 nb.id = some nb ∧
      ((create_book { authors := [{ id := 1, name := "A" }] }
        (some { title := some "New Book", author_id := some 1,
                year := some (some 2024) }) 5).2).status = 201 ∧
      ((create_book { authors := [{ id := 1, name := "A" }] }
        (some { title := some "New Book", author_id := some 1,
                year := some (some 2024) }) 5).2).success = true ∧
      nb.title = "New Book" ∧ nb.author_id = 1) := by
  have h := create_with_required_fields_succeeds
    { authors := [{ id := 1, name := "A" }] }
    { name := some "J.K. Rowling" }
    { title := some "New Book", author_id := some 1, year := some (some 2024) }
    5 "J.K. Rowling" rfl (by decide) "New Book" rfl (by decide) 1 rfl (by decide)
    (by decide) (fun s hs => nomatch hs)
  obtain ⟨⟨na, ha1, ha2, ha3, _, ha5, ha6, ha7⟩,
    ⟨nb, hb1, _, _, hb4, _, hb6, hb7, hb8, hb9⟩⟩ := h
  exact ⟨⟨na, ha1, ha2, ha3, ha5, ha6, ha7⟩, ⟨nb, hb1, hb4, hb6, hb7, hb8, hb9⟩⟩

theorem length_insertBy (le : α → α → Bool) (a : α) (l : List α) :
    (insertBy le a l).length = l.length + 1 := by
  induction l with
  | nil => rfl
  | cons b bs ih =>
    unfold insertBy
    by_cases h : le a b
    · simp [h]
    · simp [h, ih]

theorem length_orderBy (le : α → α → Bool) (l : List α) :
    (orderBy le l).length = l.length := by
  induction l with
  | nil => rfl
  | cons a as ih => simp [orderBy, length_insertBy, ih]

/-- Ceiling bound used by pagination: `n` rows fit in `ceil(n / p)` pages. -/
theorem le_ceil_mul (n p : Nat) (hp : 0 < p) : n ≤ (n + p - 1) / p * p := by
  rcases n with _ | m
  · exact Nat.zero_le _
  · have hrw : m + 1 + p - 1 = m + p := by omega
    rw [hrw, Nat.add_div_right m hp, Nat.add_mul, Nat.one_mul]
    have h1 := Nat.div_add_mod' m p
    have h2 := Nat.mod_lt m hp
    omega

/-- C5: for page size `p ≥ 1` and `n` book rows, the `pages` field of
`GET /api/books` is `ceil(n / p)`, and any requested page beyond it
answers successfully with an empty `books` list. -/
theorem get_books_pagination (db : DB) (page per_page : Int) (sort order : String)
    (hpp : 1 ≤ per_page) :
    (get_books db page per_page sort order).pages
        = (db.books.length + per_page.toNat - 1) / per_page.toNat ∧
    (((get_books db page per_page sort order).pages : Int) < page →
      (get_books db page per_page sort order).success = true ∧
      (get_books db page per_page sort order).books = []) := by
  unfold get_books
  rw [if_neg (show ¬(per_page < 1) by omega)]
  refine ⟨rfl, fun hpg => ⟨rfl, ?_⟩⟩
  have hpg' : (((db.books.length + per_page.toNat - 1) / per_page.toNat : Nat) : Int)
      < page := hpg
  set n := db.books.length with hn
  set ppn := per_page.toNat with hppn
  have hppn1 : 1 ≤ ppn := by omega
  set pages := (n + ppn - 1) / ppn with hpages
  have hp1 : pages < (if page < 1 then 1 else page.toNat) := by
    split
    · omega
    · omega
  set p := if page < 1 then 1 else page.toNat with hpdef
  have hlen : n ≤ (p - 1) * ppn := by
    have h1 : n ≤ pages * ppn := le_ceil_mul n ppn (by omega)
    have h2 : pages * ppn ≤ (p - 1) * ppn := Nat.mul_le_mul_right ppn (by omega)
    omega
  have hdrop : (orderBy (bookLe (if sort ∈ allowed_sort_fields then sort else "id") order)
      db.books).drop ((p - 1) * ppn) = [] := by
    apply List.drop_eq_nil_of_le
    rw [length_orderBy]
    exact hlen
  show (((orderBy (bookLe (if sort ∈ allowed_sort_fields then sort else "id") order)
      db.books).drop ((p - 1) * ppn)).take ppn).map (Book.to_dict db) = []
  rw [hdrop]
  simp

/-- Witness for C5: 3 books at 2 per page gives `pages = 2`, and page 5 is
returned successfully with no rows. -/
theorem get_books_pagination_witness :
    (get_books
      { books := [{ id := 1, title := "a", author_id := 1 },
                  { id := 2, title := "b", author_id := 1 },
                  { id := 3, title := "c", author_id := 1 }] }
      5 2 "id" "asc").pages = 2 ∧
    (get_books
      { books := [{ id := 1, title := "a", author_id := 1 },
                  { id := 2, title := "b", author_id := 1 },
                  { id := 3, title := "c", author_id := 1 }] }
      5 2 "id" "asc").success = true ∧
    (get_books
      { books := [{ id := 1, title := "a", author_id := 1 },
                  { id := 2, title := "b", author_id := 1 },
                  { id := 3, title := "c", author_id := 1 }] }
      5 2 "id" "asc").books = [] := by
  have h := get_books_pagination
    { books := [{ id := 1, title := "a", author_id := 1 },
                { id := 2, title := "b", author_id := 1 },
                { id := 3, title := "c", author_id := 1 }] }
    5 2 "id" "asc" (by decide)
  exact ⟨h.1.trans (by decide), (h.2 (by decide)).1, (h.2 (by decide)).2⟩

theorem mem_insertBy (le : α → α → Bool) (a x : α) (l : List α) :
    x ∈ insertBy le a l ↔ x = a ∨ x ∈ l := by
  induction l with
  | nil => simp [insertBy]
  | cons b bs ih =>
    unfold insertBy
    by_cases h : le a b
    · rw [if_pos h]
      simp
    · rw [if_neg h]
      simp only [List.mem_cons, ih]
      tauto

theorem pairwise_insertBy (le : α → α → Bool)
    (htot : ∀ a b, (le a b || le b a) = true)
    (htrans : ∀ a b c, le a b = true → le b c = true → le a c = true)
    (a : α) (l : List α) (h : l.Pairwise (fun x y => le x y = true)) :
    (insertBy le a l).Pairwise (fun x y => le x y = true) := by
  induction l with
  | nil => simp [insertBy]
  | cons b bs ih =>
    rcases List.pairwise_cons.mp h with ⟨hb, hbs⟩
    unfold insertBy
    by_cases hab : le a b = true
    · rw [if_pos hab]
      refine List.pairwise_cons.mpr ⟨?_, h⟩
      intro x hx
      rcases List.mem_cons.mp hx with rfl | hx
      · exact hab
      · exact htrans a b x hab (hb x hx)
    · rw [if_neg hab]
      refine List.pairwise_cons.mpr ⟨?_, ih hbs⟩
      intro x hx
      rcases (mem_insertBy le a x bs).mp hx with heq | hx
      · have h2 := htot a b
        rw [Bool.or_eq_true] at h2
        rcases h2 with h2 | h2
        · exact absurd h2 hab
        · rw [heq]
          exact h2
      · exact hb x hx

theorem pairwise_orderBy (le : α → α → Bool)
    (htot : ∀ a b, (le a b || le b a) = true)
    (htrans : ∀ a b c, le a b = true → le b c = true → le a c = true)
    (l : List α) :
    (orderBy le l).Pairwise (fun x y => le x y = true) := by
  induction l with
  | nil => exact List.Pairwise.nil
  | cons a as ih => exact pairwise_insertBy le htot htrans a (orderBy le as) ih

theorem bookLe_id_total (order : String) (a b : Book) :
    (bookLe "id" order a b || bookLe "id" order b a) = true := by
  by_cases ho : order = "asc" <;> simp [bookLe, ho] <;> omega

theorem bookLe_id_trans (order : String) (a b c : Book) :
    bookLe "id" order a b = true → bookLe "id" order b c = true →
    bookLe "id" order a c = true := by
  by_cases ho : order = "asc" <;> simp [bookLe, ho] <;> omega

/-- The books list of `get_books`, written out. -/
theorem get_books_books_eq (db : DB) (page per_page : Int) (sort order : String) :
    (get_books db page per_page sort order).books
      = (((orderBy (bookLe (if sort ∈ allowed_sort_fields then sort else "id") order)
            db.books).drop
          (((if page < 1 then 1 else page.toNat) - 1)
            * (if per_page < 1 then 20 else per_page.toNat))).take
          (if per_page < 1 then 20 else per_page.toNat)).map (Book.to_dict db) := rfl

/-- Under `sort = "id"` the returned page is ordered by primary key in the
requested direction. -/
theorem get_books_id_pairwise (db : DB) (page per_page : Int) (order : String) :
    ((get_books db page per_page "id" order).books.map (fun b => b.id)).Pairwise
      (fun x y => if order = "asc" then x ≤ y else y ≤ x) := by
  rw [get_books_books_eq, if_pos (show "id" ∈ allowed_sort_fields by decide)]
  rw [List.map_map, List.pairwise_map]
  have hs := pairwise_orderBy (bookLe "id" order) (bookLe_id_total order)
    (bookLe_id_trans order) db.books
  have himp : ∀ x y : Book, bookLe "id" order x y = true →
      (if order = "asc" then ((fun b => b.id) ∘ Book.to_dict db) x ≤ ((fun b => b.id) ∘ Book.to_dict db) y
       else ((fun b => b.id) ∘ Book.to_dict db) y ≤ ((fun b => b.id) ∘ Book.to_dict db) x) := by
    intro x y hxy
    by_cases ho : order = "asc" <;> simp [bookLe, ho] at hxy <;> simp [ho, Book.to_dict] <;> omega
  exact ((hs.sublist ((List.take_sublist _ _).trans (List.drop_sublist _ _))).imp
    (fun {x y} hxy => himp x y hxy))

/-- C6 fails as stated: with the unrecognized sort field "name" and
`order=desc`, the two books come back with ids `[2, 1]` — primary-key
DESCENDING, not ascending: the fallback keeps honouring the order
parameter. -/
theorem get_books_unrecognized_sort_counterexample :
    ¬("name" ∈ allowed_sort_fields) ∧
    ((get_books
        { books := [{ id := 1, title := "b", author_id := 1 },
                    { id := 2, title := "a", author_id := 1 }] }
        1 10 "name" "desc").books.map (fun b => b.id)) = [2, 1] ∧
    ((get_books
        { books := [{ id := 1, title := "b", author_id := 1 },
                    { id := 2, title := "a", author_id := 1 }] }
        1 10 "name" "desc").books.map (fun b => b.id)) ≠ [1, 2] := by
  decide

/-- C6 amended: an unrecognized sort field falls back to the primary key —
the response is identical to `sort=id` with the same other parameters, and
the returned ids are ascending when `order=asc` and descending otherwise. -/
theorem get_books_sort_fallback (db : DB) (page per_page : Int) (sort order : String)
    (h : sort ∉ allowed_sort_fields) :
    get_books db page per_page sort order = get_books db page per_page "id" order ∧
    (order = "asc" →
      ((get_books db page per_page sort order).books.map (fun b => b.id)).Pairwise (· ≤ ·)) ∧
    (order ≠ "asc" →
      ((get_books db page per_page sort order).books.map (fun b => b.id)).Pairwise
        (fun x y => y ≤ x)) := by
  have heq : get_books db page per_page sort order = get_books db page per_page "id" order := by
    unfold get_books
    rw [if_neg h, if_pos (show "id" ∈ allowed_sort_fields by decide)]
  refine ⟨heq, ?_, ?_⟩
  · intro ho
    rw [heq]
    simpa [ho] using get_books_id_pairwise db page per_page order
  · intro ho
    rw [heq]
    simpa [ho] using get_books_id_pairwise db page per_page order

/-- Witness for C6 amended at the sort field "name" with `order=asc`. -/
theorem get_books_sort_fallback_witness :
    get_books
        { books := [{ id := 1, title := "b", author_id := 1 },
                    { id := 2, title := "a", author_id := 1 }] }
        1 10 "name" "asc"
      = get_books
        { books := [{ id := 1, title := "b", author_id := 1 },
                    { id := 2, title := "a", author_id := 1 }] }
        1 10 "id" "asc" ∧
    ((get_books
        { books := [{ id := 1, title := "b", author_id := 1 },
                    { id := 2, title := "a", author_id := 1 }] }
        1 10 "name" "asc").books.map (fun b => b.id)).Pairwise (· ≤ ·) := by
  have h := get_books_sort_fallback
    { books := [{ id := 1, title := "b", author_id := 1 },
                { id := 2, title := "a", author_id := 1 }] }
    1 10 "name" "asc" (by decide)
  exact ⟨h.1, h.2.1 rfl⟩

/-- C7: a PUT on an existing book or author with a non-empty body modifies
only the fields named in the body: the target row keeps every field absent
from the body (and its key and `created_at`), the other table is untouched,
and every other row is unchanged. -/
theorem update_applies_only_named_fields
    (db : DB) (idB idA : Nat) (bd : BookData) (ad : AuthorData) (b : Book) (a : Author)
    (hb : findBook db idB = some b) (hbd : bookDataTruthy (some bd) = true)
    (ha : findAuthor db idA = some a) (had : authorDataTruthy (some ad) = true) :
    (∃ b', findBook (update_book db idB (some bd)).1 idB = some b' ∧
      b'.id = b.id ∧ b'.created_at = b.created_at ∧
      (bd.title = none → b'.title = b.title) ∧
      (bd.author_id = none → b'.author_id = b.author_id) ∧
      (bd.year = none → b'.year = b.year) ∧
      (bd.isbn = none → b'.isbn = b.isbn) ∧
      (update_book db idB (some bd)).1.authors = db.authors ∧
      (∀ x ∈ db.books, x.id ≠ idB → x ∈ (update_book db idB (some bd)).1.books) ∧
      (∀ x ∈ (update_book db idB (some bd)).1.books, x.id ≠ idB → x ∈ db.books)) ∧
    (∃ a', findAuthor (update_author db idA (some ad)).1 idA = some a' ∧
      a'.id = a.id ∧
      (ad.name = none → a'.name = a.name) ∧
      (ad.bio = none → a'.bio = a.bio) ∧
      (ad.city = none → a'.city = a.city) ∧
      (update_author db idA (some ad)).1.books = db.books ∧
      (∀ x ∈ db.authors, x.id ≠ idA → x ∈ (update_author db idA (some ad)).1.authors) ∧
      (∀ x ∈ (update_author db idA (some ad)).1.authors, x.id ≠ idA → x ∈ db.authors)) :=
  ⟨update_book_frame db idB bd b hb, update_author_frame db idA ad a ha⟩

/-- Witness for C7: updating only the book's title and only the author's
name at a concrete store leaves every other field of each row as it was. -/
theorem update_applies_only_named_fields_witness :
    (∃ b', findBook (update_book
        { authors := [{ id := 1, name := "A", bio := some "b0", city := some "c0" }],
          books := [{ id := 1, title := "T", author_id := 1, year := some 1999,
                      isbn := some "X", created_at := 7 }] }
        1 (some { title := some "New" })).1 1 = some b' ∧
      b'.id = 1 ∧ b'.created_at = 7 ∧
      ((some "New" : Option String) = none → b'.title = "T") ∧
      ((none : Option Nat) = none → b'.author_id = 1) ∧
      ((none : Option (Option Int)) = none → b'.year = some 1999) ∧
      ((none : Option (Option String)) = none → b'.isbn = some "X") ∧
      (update_book
        { authors := [{ id := 1, name := "A", bio := some "b0", city := some "c0" }],
          books := [{ id := 1, title := "T", author_id := 1, year := some 1999,
                      isbn := some "X", created_at := 7 }] }
        1 (some { title := some "New" })).1.authors
        = [{ id := 1, name := "A", bio := some "b0", city := some "c0" }]) ∧
    (∃ a', findAuthor (update_author
        { authors := [{ id := 1, name := "A", bio := some "b0", city := some "c0" }],
          books := [{ id := 1, title := "T", author_id := 1, year := some 1999,
                      isbn := some "X", created_at := 7 }] }
        1 (some { name := some "N" })).1 1 = some a' ∧
      a'.id = 1 ∧
      ((some "N" : Option String) = none → a'.name = "A") ∧
      ((none : Option (Option String)) = none → a'.bio = some "b0") ∧
      ((none : Option (Option String)) = none → a'.city = some "c0")) := by
  have h := update_applies_only_named_fields
    { authors := [{ id := 1, name := "A", bio := some "b0", city := some "c0" }],
      books := [{ id := 1, title := "T", author_id := 1, year := some 1999,
                  isbn := some "X", created_at := 7 }] }
    1 1 { title := some "New" } { name := some "N" }
    { id := 1, title := "T", author_id := 1, year := some 1999,
      isbn := some "X", created_at := 7 }
    { id := 1, name := "A", bio := some "b0", city := some "c0" }
    (by decide) (by decide) (by decide) (by decide)
  obtain ⟨⟨b', hb1, hb2, hb3, hb4, hb5, hb6, hb7, hb8, _⟩,
    ⟨a', ha1, ha2, ha3, ha4, ha5, _⟩⟩ := h
  exact ⟨⟨b', hb1, hb2, hb3, hb4, hb5, hb6, hb7, hb8⟩, ⟨a', ha1, ha2, ha3, ha4, ha5⟩⟩
